import Mathlib

/-!
Verification development for the Hadoop-style IPC RPC client engine
(`pkg/yarn/client/ipc/client.go` of koordinator-sh/goyarn).

Byte slices are modelled as `List Nat` with each element a byte value
(< 256 in every concrete input).  Slices coming from protobuf decoding or
fresh allocations have capacity equal to length, so Go slicing `s[lo:hi]`
is modelled as defined exactly when `0 ≤ lo ≤ hi ≤ length`.

Loops of the Go source are translated with an explicit fuel argument equal
to a bound that the loop body provably respects (each iteration divides by
128, or consumes at least one byte), so every definition is executable and
reduces by `rfl`/`decide` on concrete inputs.
-/

namespace Ipc

/-- Go slicing `xs[lo:hi]` (capacity = length): defined iff `0 ≤ lo ≤ hi ≤ len xs`,
otherwise the Go program panics (slice bounds out of range). -/
def goSubslice (xs : List Nat) (lo hi : Int) : Option (List Nat) :=
  if 0 ≤ lo ∧ lo ≤ hi ∧ hi ≤ (xs.length : Int) then
    some ((xs.drop lo.toNat).take (hi - lo).toNat)
  else none

/-- Go conversion `uint64 → int`: two's-complement wrap at 2^64. -/
def intOfUInt64 (n : Nat) : Int :=
  if n % 18446744073709551616 < 9223372036854775808 then
    ((n % 18446744073709551616 : Nat) : Int)
  else ((n % 18446744073709551616 : Nat) : Int) - 18446744073709551616

/-- Go conversion `int32(n)` of a nonnegative Go `int`: wrap at 2^32 into
[-2^31, 2^31). -/
def int32OfNat (n : Nat) : Int :=
  if n % 4294967296 < 2147483648 then ((n % 4294967296 : Nat) : Int)
  else ((n % 4294967296 : Nat) : Int) - 4294967296

/-- Modelled from the spec: `yarnauth.ConvertFixedToBytes` (package
`pkg/yarn/apis/auth`, not under src/) — "All multi-byte integer framing
outside protobuf varints (the 4-byte total-length prefix, …) uses
fixed-width big-endian encoding" (§4.1, §6).  Big-endian 4-byte encoding
of an int32 (two's complement). -/
def convertFixedToBytes (i : Int) : List Nat :=
  let u := (i % 4294967296).toNat
  [u / 16777216 % 256, u / 65536 % 256, u / 256 % 256, u % 256]

/-- Big-endian unsigned value of a 4-byte list. -/
def beU32 (bs : List Nat) : Nat :=
  match bs with
  | [a, b, c, d] => a * 16777216 + b * 65536 + c * 256 + d
  | _ => 0

/-- Modelled from the spec: `yarnauth.ConvertBytesToFixed` into an `int32`
variable — fixed-width big-endian decoding (§4.1, §6), two's complement. -/
def convertBytesToFixed (bs : List Nat) : Int :=
  let u := beU32 bs
  if u < 2147483648 then (u : Int) else (u : Int) - 4294967296

/-- `sizeVarint` of client.go lines 310-319 (loop `n++; x >>= 7; until x == 0`),
with fuel `x` (each iteration divides the remaining value by 128, so fuel `x`
is never exhausted; the fuel-0 fallback mirrors the first mandatory
iteration of the do-while loop). -/
def sizeVarintAux : Nat → Nat → Nat
  | 0, _ => 1
  | fuel + 1, x => if x < 128 then 1 else 1 + sizeVarintAux fuel (x / 128)

/-- Number of bytes `sizeVarint(x)` reports for the varint encoding of `x`. -/
def sizeVarint (x : Nat) : Nat := sizeVarintAux x x

/-- `protowire.AppendVarint(nil, v)`: little-endian base-128 groups with
continuation bit, as written by `writeDelimitedBytes` (client.go line 393).
Fuel as in `sizeVarintAux`. -/
def appendVarintAux : Nat → Nat → List Nat
  | 0, x => [x % 128]
  | fuel + 1, x => if x < 128 then [x] else (x % 128 + 128) :: appendVarintAux fuel (x / 128)

/-- The varint encoding of `n`. -/
def appendVarint (n : Nat) : List Nat := appendVarintAux n n

/-- `protowire.ConsumeVarint` (google.golang.org/protobuf/encoding/protowire):
returns (value, bytes consumed); a NEGATIVE count on error
(-1 truncated input, -3 overflow at the tenth byte).  The tenth byte
(index 9) must be below 2; values accumulate mod 2^64. -/
def consumeVarintLoop : List Nat → Nat → Nat → Nat × Int
  | [], _, _ => (0, -1)
  | b :: rest, idx, acc =>
    if idx = 9 then
      if b < 2 then ((acc + b * 2 ^ 63) % 18446744073709551616, 10) else (0, -3)
    else if b < 128 then
      ((acc + b * 2 ^ (7 * idx)) % 18446744073709551616, (idx : Int) + 1)
    else
      consumeVarintLoop rest (idx + 1) (acc + (b - 128) * 2 ^ (7 * idx))

/-- Entry point of `protowire.ConsumeVarint`. -/
def consumeVarint (bs : List Nat) : Nat × Int := consumeVarintLoop bs 0 0

/-- Outcome of `readDelimited` (client.go lines 465-479): either a Go panic
(out-of-range slice), or the returned pair `(off, err)` together with the
message the caller's `msg` argument now holds (`zero` when untouched). -/
inductive RDRes (α : Type) where
  | goPanic : RDRes α
  | ret (off : Int) (msg : α) (err : Bool) : RDRes α
deriving DecidableEq

/-- `readDelimited(rawData, msg)` of client.go lines 465-479.  `um` stands for
`proto.Unmarshal` into the message type of `msg` (`none` = unmarshal error),
`zero` is the zero value the caller passed in `msg`.
The code checks `off == 0` (the old `proto.DecodeVarint` failure convention)
although `protowire.ConsumeVarint` reports failure with a negative `off`;
it then slices `rawData[off : off+int(headerLength)]`. -/
def readDelimited {α : Type} (zero : α) (um : List Nat → Option α)
    (rawData : List Nat) : RDRes α :=
  let hl := (consumeVarint rawData).1
  let off := (consumeVarint rawData).2
  if off = 0 then RDRes.ret (-1) zero false
  else
    match goSubslice rawData off (off + intOfUInt64 hl) with
    | none => RDRes.goPanic
    | some b =>
      match um b with
      | none => RDRes.ret (-1) zero true
      | some m => RDRes.ret (off + intOfUInt64 hl) m false

/-! ## Transport reads

A TCP socket is modelled by the bytes the peer will deliver plus a
delivery schedule abstracting kernel timing: entry `c` caps the bytes one
`conn.Read` call hands over (at least 1 — a blocking `Read` on a TCP
connection returns at least one byte or an error); an exhausted schedule
means each `Read` delivers everything available. -/

structure Sock where
  data : List Nat
  sched : List Nat
deriving DecidableEq

/-- One `conn.con.Read(buf)` call: `none` models a socket error (EOF with
nothing delivered); otherwise up to `bufLen` bytes (capped by the schedule)
are handed over.  A zero-length buffer returns immediately. -/
def rawRead (s : Sock) (bufLen : Nat) : Option (List Nat × Sock) :=
  if bufLen = 0 then some ([], s)
  else if s.data.isEmpty then none
  else
    let cap := match s.sched with | [] => bufLen | c :: _ => max 1 c
    let n := min bufLen (min cap s.data.length)
    some (s.data.take n, ⟨s.data.drop n, s.sched.tail⟩)

/-- `io.ReadFull(reader, buf)` (client.go line 421): repeated `Read` calls
until the buffer is full, an error aborting.  Fuel `need` suffices: every
successful `Read` with a nonempty buffer delivers at least one byte. -/
def readFullAux : Nat → Sock → Nat → Option (List Nat × Sock)
  | _, s, 0 => some ([], s)
  | 0, _, _ + 1 => none
  | fuel + 1, s, need + 1 =>
    match rawRead s (need + 1) with
    | none => none
    | some (chunk, s') =>
      if chunk.isEmpty then none
      else
        match readFullAux fuel s' (need + 1 - chunk.length) with
        | none => none
        | some (rest, s'') => some (chunk ++ rest, s'')

/-- `io.ReadFull` on `need` bytes. -/
def readFull (s : Sock) (need : Nat) : Option (List Nat × Sock) :=
  readFullAux need s need

/-! ## Response header and header checks -/

/-- `RpcResponseHeaderProto_RpcStatusProto`. -/
inductive RpcStatus where
  | SUCCESS | ERROR | FATAL
deriving DecidableEq

/-- The enum's generated `String()`. -/
def statusString : RpcStatus → String
  | .SUCCESS => "SUCCESS"
  | .ERROR => "ERROR"
  | .FATAL => "FATAL"

/-- The fields of `hadoop_common.RpcResponseHeaderProto` the client reads.
Pointer/optional fields are `Option`; `errorDetail` holds the `String()`
text of the detail enum. -/
structure RpcResponseHeaderProto where
  status : Option RpcStatus
  exceptionClassName : Option String
  errorMsg : Option String
  errorDetail : Option String
  clientId : Option (List Nat)
deriving DecidableEq

/-- The zero value `hadoop_common.RpcResponseHeaderProto{}`. -/
def zeroHdr : RpcResponseHeaderProto := ⟨none, none, none, none, none⟩

/-- Outcome of `checkRpcHeader` (client.go lines 481-491). -/
inductive CheckRes where
  | goPanic | ok | err
deriving DecidableEq

/-- `Client.checkRpcHeader`: nothing to check when the response carries no
client id; otherwise compare `callClientId[0:16]` with `headerClientId[0:16]`
by `bytes.Equal` — either slice out of range is a Go panic. -/
def checkRpcHeader (callClientId : List Nat) (headerClientId : Option (List Nat)) :
    CheckRes :=
  match headerClientId with
  | none => CheckRes.ok
  | some l =>
    match goSubslice callClientId 0 16, goSubslice l 0 16 with
    | some a, some b => if a = b then CheckRes.ok else CheckRes.err
    | _, _ => CheckRes.goPanic

/-- `checkSaslRpcHeader` (client.go lines 606-615): the full header client id
must equal the zero-length `SASL_RPC_DUMMY_CLIENT_ID` (a plain `bytes.Equal`,
no fixed-width slicing). -/
def checkSaslRpcHeader (headerClientId : Option (List Nat)) : CheckRes :=
  match headerClientId with
  | none => CheckRes.ok
  | some l => if l = ([] : List Nat) then CheckRes.ok else CheckRes.err

/-- The error string `readResponse` builds for a non-SUCCESS status
(client.go lines 450-460): the array starts as
{status text, class placeholder, msg placeholder, detail placeholder} and the
present header fields overwrite indices 0, 1 and 2. -/
def buildRpcError (st : RpcStatus) (h : RpcResponseHeaderProto) : String :=
  let e0 := h.exceptionClassName.getD (statusString st)
  let e1 := h.errorMsg.getD "ServerDidNotSetExceptionClassName"
  let e2 := h.errorDetail.getD "ServerDidNotSetErrorMsg"
  let e3 := "ServerDidNotSetErrorDetail"
  String.intercalate ":" [e0, e1, e2, e3]

/-- Modelled from the spec: the composite error §4.5 prescribes — "build a
composite error from (status text, exception class name or a placeholder,
error message or a placeholder, error detail or a placeholder)". -/
def buildRpcErrorSpec (st : RpcStatus) (h : RpcResponseHeaderProto) : String :=
  String.intercalate ":"
    [statusString st,
     h.exceptionClassName.getD "ServerDidNotSetExceptionClassName",
     h.errorMsg.getD "ServerDidNotSetErrorMsg",
     h.errorDetail.getD "ServerDidNotSetErrorDetail"]

/-! ## The receive path -/

/-- Outcome of `Client.readResponse` (client.go lines 405-463). -/
inductive RRResult where
  | goPanic
  | ioErr
  | lenMismatch
  | headerErr
  | clientIdErr
  | remoteErr (e : String)
  | payloadErr
  | success
deriving DecidableEq

/-- The tail of `readResponse` after the response header was parsed at
offset `off` of `body` (client.go lines 439-462): check the client id,
dereference `*Status`, then either parse the payload from
`responseBytes[off:]` or build the remote error. -/
def readResponseAfterHeader (cid : List Nat) (pP : List Nat → Option Unit)
    (body : List Nat) (off : Int) (hdr : RpcResponseHeaderProto) : RRResult :=
  match checkRpcHeader cid hdr.clientId with
  | CheckRes.goPanic => RRResult.goPanic
  | CheckRes.err => RRResult.clientIdErr
  | CheckRes.ok =>
    match hdr.status with
    | none => RRResult.goPanic
    | some st =>
      if st = RpcStatus.SUCCESS then
        match goSubslice body off (body.length : Int) with
        | none => RRResult.goPanic
        | some restBytes =>
          match readDelimited () pP restBytes with
          | RDRes.goPanic => RRResult.goPanic
          | RDRes.ret _ _ e2 => if e2 then RRResult.payloadErr else RRResult.success
      else RRResult.remoteErr (buildRpcError st hdr)

/-- `Client.readResponse` (client.go lines 405-463).  `cid` is the client's
16-byte identifier, `pH` stands for `proto.Unmarshal` into
`RpcResponseHeaderProto`, `pP` for `proto.Unmarshal` into the caller's
response message.  The 4-byte length read is a single `conn.Read` whose
count the code ignores (unread array bytes stay zero); the body is read
with `io.ReadFull`; `make([]byte, n)` with negative `n` panics. -/
def readResponseModel (cid : List Nat) (pH : List Nat → Option RpcResponseHeaderProto)
    (pP : List Nat → Option Unit) (s : Sock) : RRResult :=
  match rawRead s 4 with
  | none => RRResult.ioErr
  | some (pfx, s1) =>
    let pfx4 := pfx ++ List.replicate (4 - pfx.length) 0
    let totalLength := convertBytesToFixed pfx4
    if totalLength < 0 then RRResult.goPanic
    else
      let tl := totalLength.toNat
      match readFull s1 tl with
      | none => RRResult.ioErr
      | some (body, _) =>
        if (body.length : Int) ≠ totalLength then RRResult.lenMismatch
        else
          match readDelimited zeroHdr pH body with
          | RDRes.goPanic => RRResult.goPanic
          | RDRes.ret off hdr e =>
            if e then RRResult.headerErr
            else readResponseAfterHeader cid pP body off hdr

/-- What the body-read phase of `readResponse` (lines 405-428) hands to the
parser: a single `Read` for the 4-byte length, then `io.ReadFull` for
exactly that many bytes. -/
inductive ReadPhaseRes where
  | ioErr
  | goPanic
  | buf (b : List Nat)
deriving DecidableEq

/-- The read phase of `Client.readResponse` (client.go lines 405-428). -/
def readResponseBodyBuffer (s : Sock) : ReadPhaseRes :=
  match rawRead s 4 with
  | none => ReadPhaseRes.ioErr
  | some (pfx, s1) =>
    let pfx4 := pfx ++ List.replicate (4 - pfx.length) 0
    let totalLength := convertBytesToFixed pfx4
    if totalLength < 0 then ReadPhaseRes.goPanic
    else
      match readFull s1 totalLength.toNat with
      | none => ReadPhaseRes.ioErr
      | some (body, _) => ReadPhaseRes.buf body

/-- The read phase of `receiveSaslMessage` (client.go lines 540-563): a single
`conn.Read` for the 4-byte length AND a single `conn.Read` for the body,
both byte counts ignored — unread bytes of the zero-initialised buffer stay
zero and the partial buffer is handed to the parser unchecked. -/
def receiveSaslBodyBuffer (s : Sock) : ReadPhaseRes :=
  match rawRead s 4 with
  | none => ReadPhaseRes.ioErr
  | some (pfx, s1) =>
    let pfx4 := pfx ++ List.replicate (4 - pfx.length) 0
    let totalLength := convertBytesToFixed pfx4
    if totalLength < 0 then ReadPhaseRes.goPanic
    else
      let tl := totalLength.toNat
      match rawRead s1 tl with
      | none => ReadPhaseRes.ioErr
      | some (chunk, _) => ReadPhaseRes.buf (chunk ++ List.replicate (tl - chunk.length) 0)

/-! ## The send path

`proto.Marshal` outputs are abstracted as the already-serialised part byte
lists; the framing arithmetic below is the source's, byte for byte. -/

/-- `writeDelimitedBytes` (client.go lines 392-403): the varint length
followed by the payload. -/
def writeDelimitedBytes (data : List Nat) : List Nat :=
  appendVarint data.length ++ data

/-- `totalLength` computed by `sendRequest` (client.go line 353) over the
serialised RPC request header `h`, procedure header `p` and request
payload `q`. -/
def sendRequestTotal (h p q : List Nat) : Nat :=
  h.length + sizeVarint h.length + p.length + sizeVarint p.length +
    q.length + sizeVarint q.length

/-- The bytes `sendRequest` (client.go lines 321-381) puts on the wire:
4-byte big-endian `int32(totalLength)`, then the three delimited parts. -/
def sendRequestFrame (h p q : List Nat) : List Nat :=
  convertFixedToBytes (int32OfNat (sendRequestTotal h p q)) ++
    writeDelimitedBytes h ++ writeDelimitedBytes p ++ writeDelimitedBytes q

/-- `totalLength` computed by `writeConnectionContext` (client.go line 286)
over the serialised RPC request header `h` and connection context `c`. -/
def connectionContextTotal (h c : List Nat) : Nat :=
  h.length + sizeVarint h.length + c.length + sizeVarint c.length

/-- The bytes `writeConnectionContext` (client.go lines 256-308) puts on the
wire after the connection header. -/
def connectionContextFrame (h c : List Nat) : List Nat :=
  convertFixedToBytes (int32OfNat (connectionContextTotal h c)) ++
    writeDelimitedBytes h ++ writeDelimitedBytes c

/-- `totalLength` computed by `sendSaslMessage` (client.go line 514) over the
serialised SASL RPC header `h` and SASL message `m`. -/
def saslMessageTotal (h m : List Nat) : Nat :=
  h.length + sizeVarint h.length + m.length + sizeVarint m.length

/-- The bytes `sendSaslMessage` (client.go lines 493-538) puts on the wire. -/
def saslMessageFrame (h m : List Nat) : List Nat :=
  convertFixedToBytes (int32OfNat (saslMessageTotal h m)) ++
    writeDelimitedBytes h ++ writeDelimitedBytes m

/-! ## SASL negotiation (client.go lines 617-694) -/

/-- `hadoop_common.RpcSaslProto_SaslState` (SUCCESS is the zero value). -/
inductive SaslState where
  | SUCCESS | NEGOTIATE | INITIATE | RESPONSE | WRAP
deriving DecidableEq

/-- The fields of `RpcSaslProto_SaslAuth` the negotiator reads (generated
`GetX` getters return the zero value for an absent field). -/
structure SaslAuth where
  method : Option String
  mechanism : Option String
  protocol : Option String
  serverId : Option String
  challenge : Option (List Nat)
deriving DecidableEq

/-- Generated getter on an optional string field. -/
def getStr (o : Option String) : String := o.getD ""

/-- The fields of `RpcSaslProto` the negotiator reads (`GetAuths` yields an
empty list for an absent field, `GetState` the zero value SUCCESS). -/
structure RpcSaslProto where
  state : Option SaslState
  token : Option (List Nat)
  auths : List SaslAuth
deriving DecidableEq

/-- The environment one run of `negotiateSimpleTokenAuth` sees: whether each
send succeeds, what each `receiveSaslMessage` yields (`none` = error), and
the digest computation's outcome (`security.GetDigestMD5ChallengeResponse`
is outside the engine). -/
structure SaslWorld where
  sendNegOk : Bool
  negResp : Option RpcSaslProto
  digest : Option (List Nat)
  sendInitOk : Bool
  initResp : Option RpcSaslProto
deriving DecidableEq

/-- Result of `negotiateSimpleTokenAuth` paired with whether the INITIATE
message was ever handed to `sendSaslMessage`. -/
inductive SaslOutcome where
  | ok (initiateSent : Bool)
  | err (msg : String) (initiateSent : Bool)
deriving DecidableEq

/-- `negotiateSimpleTokenAuth` (client.go lines 617-694): send NEGOTIATE,
receive the mechanism offer, fail on an empty offer, accept only a first
mechanism of exactly method TOKEN with mechanism DIGEST-MD5, then compute
the digest, send INITIATE and require a SUCCESS reply. -/
def negotiateSimpleTokenAuth (w : SaslWorld) : SaslOutcome :=
  if ¬ w.sendNegOk then SaslOutcome.err "failed to send SASL NEGOTIATE message!" false
  else
    match w.negResp with
    | none => SaslOutcome.err "failed to receive SASL NEGOTIATE response!" false
    | some resp =>
      match resp.auths with
      | [] => SaslOutcome.err "No supported auth mechanisms!" false
      | auth :: _ =>
        if ¬ (getStr auth.method = "TOKEN" ∧ getStr auth.mechanism = "DIGEST-MD5") then
          SaslOutcome.err "yarnauth only supports TOKEN/DIGEST-MD5 auth!" false
        else
          match w.digest with
          | none => SaslOutcome.err "failed to get challenge response!" false
          | some _ =>
            if ¬ w.sendInitOk then
              SaslOutcome.err "failed to send SASL INITIATE message!" true
            else
              match w.initResp with
              | none => SaslOutcome.err "failed to read response to SASL INITIATE response!" true
              | some r2 =>
                if r2.state.getD SaslState.SUCCESS = SaslState.SUCCESS then
                  SaslOutcome.ok true
                else SaslOutcome.err "expected SASL SUCCESS response!" true

/-! ## Call control flow and connection lifetime (client.go lines 86-191) -/

/-- Which of the steps of one `Client.Call` invocation would succeed. -/
structure CallWorld where
  dialOk : Bool
  headerOk : Bool
  hasToken : Bool
  saslOk : Bool
  contextOk : Bool
  sendOk : Bool
  recvOk : Bool
deriving DecidableEq

/-- Result of `getConnection` (client.go lines 141-191): whether a TCP
connection was opened by `setupConnection`, and whether `getConnection`
returned it without error.  Every failing step after a successful dial
returns `nil, err` without closing the socket. -/
structure GetConnResult where
  connected : Bool
  handedBack : Bool
deriving DecidableEq

/-- `getConnection`: dial, write the connection header, run SASL when a
token is available, write the connection context. -/
def getConnectionModel (w : CallWorld) : GetConnResult :=
  if ¬ w.dialOk then ⟨false, false⟩
  else if ¬ w.headerOk then ⟨true, false⟩
  else if w.hasToken ∧ ¬ w.saslOk then ⟨true, false⟩
  else if ¬ w.contextOk then ⟨true, false⟩
  else ⟨true, true⟩

/-- What one `Client.Call` did with its connection. -/
structure CallOutcome where
  opened : Bool
  closed : Bool
  succeeded : Bool
deriving DecidableEq

/-- `Client.Call` (client.go lines 86-117): `getConnection`, then
`sendRequest` (error ⇒ return err), then `readResponse` followed by the
only `conn.con.Close()` of the function (line 114). -/
def callModel (w : CallWorld) : CallOutcome :=
  let g := getConnectionModel w
  if ¬ g.handedBack then ⟨g.connected, false, false⟩
  else if ¬ w.sendOk then ⟨true, false, false⟩
  else ⟨true, true, w.recvOk⟩

/-! ## Per-phase deadlines (spec §4.2, §5)

Each read/write phase of one call is a list of transport events in source
order; `SetDeadline` appears exactly where the source calls it. -/

inductive IOEvent where
  | setDeadline | ioWrite | ioRead
deriving DecidableEq

inductive RpcPhase where
  | connHeader | saslSend | saslRecv | connContext | requestSend | responseRecv
deriving DecidableEq

/-- The transport events of each phase, in source order:
`writeConnectionHeader` (lines 219-254) arms a deadline then writes the four
header fields; `sendSaslMessage` (493-538) arms a deadline then writes the
length and two delimited parts; `receiveSaslMessage` (540-563) arms a
deadline then reads the length and the body; `writeConnectionContext`
(256-308) arms a deadline then writes the length and two delimited parts;
`sendRequest` (321-381) arms a deadline then writes the length and three
delimited parts; `readResponse` (405-463) reads the length and the body
WITHOUT arming any deadline. -/
def phaseEvents : RpcPhase → List IOEvent
  | RpcPhase.connHeader =>
    [IOEvent.setDeadline, IOEvent.ioWrite, IOEvent.ioWrite, IOEvent.ioWrite, IOEvent.ioWrite]
  | RpcPhase.saslSend =>
    [IOEvent.setDeadline, IOEvent.ioWrite, IOEvent.ioWrite, IOEvent.ioWrite,
     IOEvent.ioWrite, IOEvent.ioWrite]
  | RpcPhase.saslRecv => [IOEvent.setDeadline, IOEvent.ioRead, IOEvent.ioRead]
  | RpcPhase.connContext =>
    [IOEvent.setDeadline, IOEvent.ioWrite, IOEvent.ioWrite, IOEvent.ioWrite,
     IOEvent.ioWrite, IOEvent.ioWrite]
  | RpcPhase.requestSend =>
    [IOEvent.setDeadline, IOEvent.ioWrite, IOEvent.ioWrite, IOEvent.ioWrite,
     IOEvent.ioWrite, IOEvent.ioWrite, IOEvent.ioWrite, IOEvent.ioWrite]
  | RpcPhase.responseRecv => [IOEvent.ioRead, IOEvent.ioRead]

/-- The read/write phases of one successful `Call`, in order (the two SASL
round trips only when a token was found). -/
def callPhaseSequence (hasToken : Bool) : List RpcPhase :=
  [RpcPhase.connHeader] ++
    (if hasToken then
      [RpcPhase.saslSend, RpcPhase.saslRecv, RpcPhase.saslSend, RpcPhase.saslRecv]
     else []) ++
    [RpcPhase.connContext, RpcPhase.requestSend, RpcPhase.responseRecv]

/-! ## Helper lemmas -/

/-- The byte count `sizeVarint` reports is the length of the varint
`writeDelimitedBytes` actually writes, fuel by fuel. -/
theorem length_appendVarintAux (fuel : Nat) :
    ∀ x, (appendVarintAux fuel x).length = sizeVarintAux fuel x := by
  induction fuel with
  | zero => intro x; rfl
  | succ n ih =>
    intro x
    unfold appendVarintAux sizeVarintAux
    by_cases h : x < 128
    · simp [h]
    · simp [h, ih (x / 128), Nat.add_comm]

/-- `sizeVarint` equals the length of the varint encoding. -/
theorem length_appendVarint (n : Nat) : (appendVarint n).length = sizeVarint n :=
  length_appendVarintAux n n

/-- Length of one delimited block. -/
theorem writeDelimitedBytes_length (d : List Nat) :
    (writeDelimitedBytes d).length = sizeVarint d.length + d.length := by
  simp [writeDelimitedBytes, length_appendVarint]

/-- The 4-byte field at the head of a frame. -/
theorem take4_frame (i : Int) (rest : List Nat) :
    ((convertFixedToBytes i) ++ rest).take 4 = convertFixedToBytes i := by
  have h4 : (convertFixedToBytes i).length = 4 := rfl
  rw [← h4, List.take_left]

/-- Round trip of the big-endian int32 encoding below 2^31. -/
theorem beU32_convertFixed (L : Nat) (hL : L < 2147483648) :
    beU32 (convertFixedToBytes (int32OfNat L)) = L := by
  have hmod : L % 4294967296 = L := Nat.mod_eq_of_lt (by omega)
  have h1 : int32OfNat L = (L : Int) := by
    unfold int32OfNat
    rw [hmod, if_pos hL]
  rw [h1]
  have h2 : ((L : Int) % 4294967296).toNat = L := by omega
  simp only [convertFixedToBytes, beU32, h2]
  omega

/-- A varint whose continuation bits never clear makes `ConsumeVarint`
report a negative count (truncated or overflow), whatever the start
index and accumulator. -/
theorem consumeVarintLoop_all_cont_neg :
    ∀ (bs : List Nat) (idx acc : Nat), (∀ b ∈ bs, 128 ≤ b) →
      (consumeVarintLoop bs idx acc).2 < 0 := by
  intro bs
  induction bs with
  | nil => intro idx acc _; simp [consumeVarintLoop]
  | cons b rest ih =>
    intro idx acc hall
    have hb : 128 ≤ b := hall b (by simp)
    unfold consumeVarintLoop
    by_cases h9 : idx = 9
    · simp [h9, show ¬ b < 2 by omega]
    · simp only [h9, if_false, show ¬ b < 128 by omega, ite_false]
      exact ih (idx + 1) (acc + (b - 128) * 2 ^ (7 * idx)) fun x hx => hall x (by simp [hx])

/-- When `ConsumeVarint` reports a negative count, `readDelimited` slices
with a negative low bound and panics. -/
theorem readDelimited_neg_off_panics {α : Type} (zero : α) (um : List Nat → Option α)
    (raw : List Nat) (hneg : (consumeVarint raw).2 < 0) :
    readDelimited zero um raw = RDRes.goPanic := by
  unfold readDelimited
  rw [if_neg (by omega)]
  have hslice : goSubslice raw (consumeVarint raw).2
      ((consumeVarint raw).2 + intOfUInt64 (consumeVarint raw).1) = none := by
    unfold goSubslice
    rw [if_neg]
    intro ⟨h0, _, _⟩
    omega
  rw [hslice]

/-! ## Claim C1 -/

/-- C1: the claim says the connection, once opened, is closed before `Call`
returns on every exit path.  The code closes it only after `readResponse`
(client.go line 114): a connection-header failure, a SASL failure and a
`sendRequest` failure all return with the socket open and never closed. -/
theorem call_leaks_connection_on_early_failure :
    (callModel ⟨true, false, false, true, true, true, true⟩).opened = true ∧
    (callModel ⟨true, false, false, true, true, true, true⟩).closed = false ∧
    (callModel ⟨true, true, true, false, true, true, true⟩).opened = true ∧
    (callModel ⟨true, true, true, false, true, true, true⟩).closed = false ∧
    (callModel ⟨true, true, false, true, true, false, true⟩).opened = true ∧
    (callModel ⟨true, true, false, true, true, false, true⟩).closed = false ∧
    (callModel ⟨true, true, false, true, true, true, false⟩).closed = true := by
  decide

/-! ## Claim C2 -/

/-- C2: the claim says a total-length prefix of exactly 0 is decoded without
panic and yields a framing error.  On the frame `[0,0,0,0]` the body is
empty, `ConsumeVarint` returns count -1, the `off == 0` guard of
`readDelimited` misses it, and `rawData[-1:-1]` panics. -/
theorem readResponse_empty_frame_panics :
    readResponseModel (List.replicate 16 1) (fun _ => some zeroHdr) (fun _ => some ())
      ⟨[0, 0, 0, 0], []⟩ = RRResult.goPanic ∧
    (readDelimited zeroHdr (fun _ => some zeroHdr) [] :
      RDRes RpcResponseHeaderProto) = RDRes.goPanic ∧
    (consumeVarint []).2 = -1 := by
  decide

/-! ## Claim C3 -/

/-- C3: the claim says a malformed (never-terminating) varint length prefix
always surfaces as a framing error, never a panic, never success.  In the
code every such buffer panics: `ConsumeVarint` reports a negative count,
the `off == 0` guard misses it and the slice bound is negative. -/
theorem readDelimited_malformed_never_signals (raw : List Nat)
    (hcont : ∀ b ∈ raw, 128 ≤ b) :
    ∀ {α : Type} (zero : α) (um : List Nat → Option α),
      readDelimited zero um raw = RDRes.goPanic := by
  intro α zero um
  exact readDelimited_neg_off_panics zero um raw
    (consumeVarintLoop_all_cont_neg raw 0 0 hcont)

/-- Witness: the single continuation byte `0x80` panics. -/
theorem readDelimited_malformed_never_signals_witness :
    (readDelimited () (fun _ => some ()) [128] : RDRes Unit) = RDRes.goPanic :=
  readDelimited_malformed_never_signals [128] (by decide) () (fun _ => some ())

/-! ## Claim C8 -/

/-- C8: the claim says both receive paths read exactly 4 length bytes and
exactly total-length body bytes, retrying short reads.  With a 6-byte body
delivered 3 bytes at a time, `readResponse`'s `io.ReadFull` does retry and
gets the whole body, but `receiveSaslMessage` issues one `conn.Read`,
ignores the short count and hands a zero-padded partial buffer to the
parser. -/
theorem sasl_receive_accepts_partial_frame :
    receiveSaslBodyBuffer ⟨[0, 0, 0, 6, 9, 9, 9, 8, 8, 8], [4, 3]⟩ =
      ReadPhaseRes.buf [9, 9, 9, 0, 0, 0] ∧
    readResponseBodyBuffer ⟨[0, 0, 0, 6, 9, 9, 9, 8, 8, 8], [4, 3]⟩ =
      ReadPhaseRes.buf [9, 9, 9, 8, 8, 8] := by
  decide

/-! ## Claim C10 -/

/-- C10: a present client id shorter than 16 bytes (here the empty byte
string) makes `checkRpcHeader` slice `headerClientId[0:16]` out of range:
the call path panics instead of returning an integrity error. -/
theorem short_clientid_panics :
    checkRpcHeader (List.replicate 16 7) (some []) = CheckRes.goPanic ∧
    readResponseModel (List.replicate 16 7)
      (fun _ => some ⟨some RpcStatus.SUCCESS, none, none, none, some []⟩)
      (fun _ => some ()) ⟨[0, 0, 0, 4, 1, 99, 1, 88], []⟩ = RRResult.goPanic := by
  decide

/-! ## Claim C4 -/

/-- C4 counterexample: a 17-byte client id extending the caller's 16-byte
identifier is NOT byte-for-byte equal to it, yet `checkRpcHeader` compares
only `headerClientId[0:16]`, accepts the response, and the payload is
decoded: the run returns success. -/
theorem checkRpcHeader_extended_clientid_accepted :
    (List.replicate 16 7 ++ [0] ≠ List.replicate 16 7) ∧
    checkRpcHeader (List.replicate 16 7) (some (List.replicate 16 7 ++ [0])) =
      CheckRes.ok ∧
    readResponseModel (List.replicate 16 7)
      (fun _ =>
        some ⟨some RpcStatus.SUCCESS, none, none, none, some (List.replicate 16 7 ++ [0])⟩)
      (fun _ => some ()) ⟨[0, 0, 0, 4, 1, 99, 1, 88], []⟩ = RRResult.success := by
  decide

/-- C4 (amended): a present client id of length at least 16 whose first 16
bytes differ from the caller's 16-byte identifier is rejected with the
integrity error before any payload decoding — for every payload parser the
result is the client-id error. -/
theorem checkRpcHeader_first16_mismatch_rejected
    (cid l : List Nat) (hdr : RpcResponseHeaderProto) (body : List Nat) (off : Int)
    (pP : List Nat → Option Unit)
    (hcid : hdr.clientId = some l) (hlen : cid.length = 16) (hllen : 16 ≤ l.length)
    (hne : l.take 16 ≠ cid) :
    readResponseAfterHeader cid pP body off hdr = RRResult.clientIdErr := by
  have hsub1 : goSubslice cid 0 16 = some cid := by
    unfold goSubslice
    rw [if_pos (show (0 : Int) ≤ 0 ∧ (0 : Int) ≤ 16 ∧ (16 : Int) ≤ (cid.length : Int)
      from ⟨le_refl 0, by omega, by omega⟩)]
    have h1 : ((16 - 0 : Int)).toNat = 16 := rfl
    have h2 : ((0 : Int)).toNat = 0 := rfl
    rw [h1, h2, List.drop_zero, List.take_of_length_le (by omega)]
  have hsub2 : goSubslice l 0 16 = some (l.take 16) := by
    unfold goSubslice
    rw [if_pos (show (0 : Int) ≤ 0 ∧ (0 : Int) ≤ 16 ∧ (16 : Int) ≤ (l.length : Int)
      from ⟨le_refl 0, by omega, by omega⟩)]
    have h1 : ((16 - 0 : Int)).toNat = 16 := rfl
    have h2 : ((0 : Int)).toNat = 0 := rfl
    rw [h1, h2, List.drop_zero]
  have hchk : checkRpcHeader cid (some l) = CheckRes.err := by
    simp only [checkRpcHeader, hsub1, hsub2]
    rw [if_neg (fun h => hne h.symm)]
  simp only [readResponseAfterHeader, hcid, hchk]

/-- C4 (amended) witness: an all-2s 16-byte client id against an all-1s
caller identifier is rejected. -/
theorem checkRpcHeader_first16_mismatch_rejected_witness :
    readResponseAfterHeader (List.replicate 16 1) (fun _ => some ()) [] 0
      ⟨some RpcStatus.SUCCESS, none, none, none, some (List.replicate 16 2)⟩ =
      RRResult.clientIdErr :=
  checkRpcHeader_first16_mismatch_rejected (List.replicate 16 1) (List.replicate 16 2)
    ⟨some RpcStatus.SUCCESS, none, none, none, some (List.replicate 16 2)⟩ [] 0
    (fun _ => some ()) rfl (by decide) (by decide) (by decide)

/-! ## Claim C5 -/

/-- C5: a NEGOTIATE response offering zero mechanisms fails the handshake
before INITIATE is ever sent; a first offered mechanism other than exactly
TOKEN/DIGEST-MD5 fails with the unsupported-mechanism error, likewise
before INITIATE and regardless of any further offered mechanisms; and a
failed SASL negotiation makes `getConnection` return an error rather than
fall back to unauthenticated mode. -/
theorem negotiate_rejects_empty_and_non_token_offers :
    (∀ (w : SaslWorld) (resp : RpcSaslProto),
      w.sendNegOk = true → w.negResp = some resp →
      (resp.auths = [] →
        negotiateSimpleTokenAuth w =
          SaslOutcome.err "No supported auth mechanisms!" false) ∧
      (∀ (a : SaslAuth) (rest : List SaslAuth), resp.auths = a :: rest →
        ¬ (getStr a.method = "TOKEN" ∧ getStr a.mechanism = "DIGEST-MD5") →
        negotiateSimpleTokenAuth w =
          SaslOutcome.err "yarnauth only supports TOKEN/DIGEST-MD5 auth!" false)) ∧
    (∀ cw : CallWorld, cw.hasToken = true → cw.saslOk = false →
      (getConnectionModel cw).handedBack = false) := by
  constructor
  · intro w resp hsend hresp
    constructor
    · intro hempty
      simp [negotiateSimpleTokenAuth, hsend, hresp, hempty]
    · intro a rest hcons hbad
      simp [negotiateSimpleTokenAuth, hsend, hresp, hcons, hbad]
  · intro cw ht hs
    rcases cw with ⟨d, hh, t, s, c, sn, r⟩
    simp only at ht hs
    cases d <;> cases hh <;> simp [getConnectionModel, ht, hs]

/-- C5 witness: an empty offer fails before INITIATE; an offer starting with
SIMPLE fails with the unsupported-mechanism error before INITIATE. -/
theorem negotiate_rejects_empty_and_non_token_offers_witness :
    negotiateSimpleTokenAuth
      ⟨true, some ⟨some SaslState.NEGOTIATE, none, []⟩, some [1], true, none⟩ =
      SaslOutcome.err "No supported auth mechanisms!" false ∧
    negotiateSimpleTokenAuth
      ⟨true, some ⟨some SaslState.NEGOTIATE, none,
        [⟨some "SIMPLE", some "PLAIN", none, none, none⟩,
         ⟨some "TOKEN", some "DIGEST-MD5", none, none, none⟩]⟩,
        some [1], true, none⟩ =
      SaslOutcome.err "yarnauth only supports TOKEN/DIGEST-MD5 auth!" false :=
  ⟨(negotiate_rejects_empty_and_non_token_offers.1 _
      ⟨some SaslState.NEGOTIATE, none, []⟩ rfl rfl).1 rfl,
   (negotiate_rejects_empty_and_non_token_offers.1 _
      ⟨some SaslState.NEGOTIATE, none,
        [⟨some "SIMPLE", some "PLAIN", none, none, none⟩,
         ⟨some "TOKEN", some "DIGEST-MD5", none, none, none⟩]⟩ rfl rfl).2
      ⟨some "SIMPLE", some "PLAIN", none, none, none⟩ _ rfl (by decide)⟩

/-! ## Claim C6 -/

/-- C6: for each of the three frame kinds the 4-byte big-endian total-length
field equals the exact number of bytes of the delimited parts that follow
it — the sum over the parts of (varint size of the part length + part
length) — whenever that sum fits an int32. -/
theorem totalLength_equals_sum_of_parts :
    (∀ h p q : List Nat, sendRequestTotal h p q < 2147483648 →
      beU32 ((sendRequestFrame h p q).take 4) =
        (writeDelimitedBytes h).length + (writeDelimitedBytes p).length +
          (writeDelimitedBytes q).length) ∧
    (∀ h c : List Nat, connectionContextTotal h c < 2147483648 →
      beU32 ((connectionContextFrame h c).take 4) =
        (writeDelimitedBytes h).length + (writeDelimitedBytes c).length) ∧
    (∀ h m : List Nat, saslMessageTotal h m < 2147483648 →
      beU32 ((saslMessageFrame h m).take 4) =
        (writeDelimitedBytes h).length + (writeDelimitedBytes m).length) := by
  refine ⟨fun h p q hlt => ?_, fun h c hlt => ?_, fun h m hlt => ?_⟩
  · rw [sendRequestFrame, List.append_assoc, List.append_assoc, take4_frame,
      beU32_convertFixed _ hlt]
    simp [sendRequestTotal, writeDelimitedBytes_length]
    ring
  · rw [connectionContextFrame, List.append_assoc, take4_frame,
      beU32_convertFixed _ hlt]
    simp [connectionContextTotal, writeDelimitedBytes_length]
    ring
  · rw [saslMessageFrame, List.append_assoc, take4_frame,
      beU32_convertFixed _ hlt]
    simp [saslMessageTotal, writeDelimitedBytes_length]
    ring

set_option maxRecDepth 8000 in
/-- C6 witness at the varint size-class boundary: parts of length 128
(2-byte varint) and 127 (1-byte varint). -/
theorem totalLength_equals_sum_of_parts_witness :
    beU32 ((sendRequestFrame (List.replicate 128 0) (List.replicate 127 0) []).take 4) =
      (writeDelimitedBytes (List.replicate 128 0)).length +
        (writeDelimitedBytes (List.replicate 127 0)).length +
        (writeDelimitedBytes []).length :=
  totalLength_equals_sum_of_parts.1 (List.replicate 128 0) (List.replicate 127 0) []
    (by decide)

/-! ## Claim C7 -/

/-- The header of the end-to-end error scenario: status ERROR with exception
class `java.io.IOException` and a server message. -/
def hdrIOException : RpcResponseHeaderProto :=
  ⟨some RpcStatus.ERROR, some "java.io.IOException", some "File not found", none, none⟩

/-- C7: the claim says the composite error is built from (status text,
class or placeholder, message or placeholder, detail or placeholder).  The
code overwrites index 0 — the status text — with the exception class, puts
the message into the class slot and the detail into the message slot, and
can never replace the detail placeholder.  The error still contains the
class name and the message, and the payload parser is never consulted. -/
theorem rpc_error_components_shifted :
    buildRpcError RpcStatus.ERROR hdrIOException =
      "java.io.IOException:File not found:ServerDidNotSetErrorMsg:ServerDidNotSetErrorDetail" ∧
    buildRpcErrorSpec RpcStatus.ERROR hdrIOException =
      "ERROR:java.io.IOException:File not found:ServerDidNotSetErrorDetail" ∧
    buildRpcError RpcStatus.ERROR hdrIOException ≠
      buildRpcErrorSpec RpcStatus.ERROR hdrIOException ∧
    (∀ pP : List Nat → Option Unit,
      readResponseModel (List.replicate 16 1) (fun _ => some hdrIOException) pP
        ⟨[0, 0, 0, 2, 1, 99], []⟩ =
        RRResult.remoteErr (buildRpcError RpcStatus.ERROR hdrIOException)) := by
  refine ⟨by decide, by decide, by decide, fun pP => rfl⟩

/-! ## Claim C9 -/

/-- C9 counterexample: the response-receive phase (`readResponse`) opens
with a read, not with a deadline arm. -/
theorem readResponse_phase_sets_no_deadline :
    ¬ ((phaseEvents RpcPhase.responseRecv).head? = some IOEvent.setDeadline) := by
  decide

/-- C9 (amended): every read or write phase of a call except the response
receive begins by arming a fresh deadline; `readResponse` alone runs under
the deadline armed at the start of `sendRequest`. -/
theorem deadline_fresh_except_response_recv :
    ∀ (hasToken : Bool) (p : RpcPhase), p ∈ callPhaseSequence hasToken →
      p ≠ RpcPhase.responseRecv →
      (phaseEvents p).head? = some IOEvent.setDeadline := by
  intro t p _ hne
  cases p
  case responseRecv => exact absurd rfl hne
  all_goals rfl

/-- C9 (amended) witness: the connection-header phase starts with a
deadline arm. -/
theorem deadline_fresh_except_response_recv_witness :
    (phaseEvents RpcPhase.connHeader).head? = some IOEvent.setDeadline :=
  deadline_fresh_except_response_recv false RpcPhase.connHeader (by decide) (by decide)

end Ipc
